import Mathlib

/-!
Shallow embedding of the thematic-mapping core of `src/app.js`
(geoportal for Natividade).

Modelling conventions:
* JavaScript numbers are modelled as `ℚ` (all values involved are finite).
* A feature's attribute value is `Option ℚ`: `some v` means the stored value
  coerces (via `parseFloat` / numeric comparison) to the finite number `v`;
  `none` means the value is missing, `null`, `undefined` or not coercible
  to a finite number (`parseFloat` yields `NaN`).
* A function that can yield JavaScript `undefined` returns an `Option`.
* Leaflet's `layer.setStyle(opts)` merges `opts` into the current style
  options; every call site is therefore modelled as a record update on the
  feature's current `Style`.
-/

/-- The fixed neutral no-data color returned by `getColorForValue`
(`src/app.js` line 716). -/
def noDataColor : String := "#ccc"

/-- The fixed 5-color sequential palette (ColorBrewer YlOrRd) assigned to
`thematicColors` by `applyThematicMapping` (`src/app.js` lines 675-681). -/
def thematicPalette : List String :=
  ["#ffffb2", "#fecc5c", "#fd8d3c", "#f03b20", "#bd0026"]

/-- The loop of `getColorForValue` (`src/app.js` lines 718-722): the index of
the first break `b`, scanning the breaks in list order, with `v ≤ b`;
`none` when `v` exceeds every break. -/
def scanIdx (v : ℚ) : List ℚ → Option ℕ
  | [] => none
  | b :: bs => if v ≤ b then some 0 else (scanIdx v bs).map (· + 1)

/-- Model of `getColorForValue(value, breaks, colors)` (`src/app.js` lines 715-724).
A `none` value models `undefined`, `null` or NaN and yields the fixed
no-data color.  Otherwise the first break index `i` with `value ≤ breaks[i]`
selects `colors[i]`; when the value exceeds every break the function returns
`colors[colors.length - 1]`.  A result of `none` models JavaScript
`undefined` (an out-of-range palette index). -/
def getColorForValue (value : Option ℚ) (breaks : List ℚ)
    (colors : List String) : Option String :=
  match value with
  | none => some noDataColor
  | some v =>
    match scanIdx v breaks with
    | some i => colors[i]?
    | none => colors[colors.length - 1]?

/-- The positions of `values` read by `calculateJenks` (`src/app.js`
lines 727-737): with `step = ⌊n / classes⌋`, the position `i * step` for
each loop iteration `i = 1, …, classes - 1`, followed by the final
position `n - 1`. -/
def jenksIndices (n classes : ℕ) : List ℕ :=
  (List.range' 1 (classes - 1)).map (fun i => i * (n / classes)) ++ [n - 1]

/-- Model of `calculateJenks(values, classes)` (`src/app.js` lines 727-737):
quantile-style breaks, reading `values` at `jenksIndices`. -/
def calculateJenks (values : List ℚ) (classes : ℕ) : List ℚ :=
  (jenksIndices values.length classes).map (fun i => values.getD i 0)

/-- One rendered legend row: range start, range end and its color swatch
(`none` models an `undefined` color lookup). -/
structure LegendEntry where
  rangeStart : ℚ
  rangeEnd : ℚ
  swatch : Option String
deriving DecidableEq

instance : Inhabited LegendEntry := ⟨⟨0, 0, none⟩⟩

/-- The loop of `updateLegend` (`src/app.js` lines 747-765) with its running
`start` accumulator: row `i` spans from the previous break (initially `0`)
to `breaks[i]` and is swatched with `colors[i]`. -/
def buildLegendEntries (start : ℚ) : List ℚ → List String → List LegendEntry
  | [], _ => []
  | b :: bs, colors => ⟨start, b, colors.head?⟩ :: buildLegendEntries b bs colors.tail

/-- Model of `updateLegend(attribute, breaks, colors)` (`src/app.js` lines 739-768):
the list of legend rows it renders (the DOM container is also made
visible, modelled by the `legendVisible` field of `AppState`). -/
def updateLegend (breaks : List ℚ) (colors : List String) : List LegendEntry :=
  buildLegendEntries 0 breaks colors

/-- A Leaflet path style: the option keys touched by `src/app.js`.
`radius` is `none` for polygon layers and `some r` for circle markers. -/
structure Style where
  fillColor : Option String
  weight : ℚ
  opacity : ℚ
  color : String
  dashArray : String
  fillOpacity : ℚ
  radius : Option ℚ
deriving DecidableEq

/-- A GeoJSON feature: its `properties` bag, with values already reduced to
`some`-coercible-number or `none` (missing / null / non-numeric). -/
structure Feature where
  props : String → Option ℚ

/-- One layer member of the census-sector store: the feature plus its
current rendered style options. -/
structure LayerFeature where
  feature : Feature
  style : Style

/-- The module-level mutable state of `src/app.js` relevant to thematic
mapping: whether `dataLayers['setores']` is populated, the store's features
with their current styles, the Thematic State triple
(`currentThematicAttribute`, `thematicBreaks`, `thematicColors`,
lines 644-646), the legend visibility and its rendered rows, and the log of
user-facing `alert` messages raised so far. -/
structure AppState where
  setoresLoaded : Bool
  setores : List LayerFeature
  currentThematicAttribute : Option String
  thematicBreaks : List ℚ
  thematicColors : List String
  legendVisible : Bool
  legendEntries : List LegendEntry
  alerts : List String

/-- Value of `CONFIG.layers['setores'].color` (`src/app.js` line 29). -/
def setoresColor : String := "#f093fb"

/-- Lookup of `CONFIG.layers[layerName].color` (`src/app.js` lines 21-47); `none` when
the layer name is not configured. -/
def configColor (layerName : String) : Option String :=
  if layerName = "distritos" then some "#667eea"
  else if layerName = "setores" then some setoresColor
  else if layerName = "urb_rur" then some "#4facfe"
  else if layerName = "deficit_hab" then some "#fa709a"
  else if layerName = "residencia" then some "#43e97b"
  else none

/-- Model of `layer.setStyle(getFeatureStyle(feature, color))`: `getFeatureStyle`
(`src/app.js` lines 234-243) produces the six keys below, which Leaflet
merges into the current style (leaving `radius` untouched). -/
def getFeatureStyle (color : String) (st : Style) : Style :=
  { st with
    fillColor := some color
    weight := 2
    opacity := 1
    color := color
    dashArray := ""
    fillOpacity := 3/10 }

/-- The per-feature restyle of step 4 of `applyThematicMapping`
(`src/app.js` lines 684-694): fill color from `getColorForValue`, fill
opacity `0.8`, border weight `1`, border color `'#333'`. -/
def applyFeatureStyle (attr : String) (breaks : List ℚ)
    (colors : List String) (lf : LayerFeature) : LayerFeature :=
  { lf with
    style :=
      { lf.style with
        fillColor := getColorForValue (lf.feature.props attr) breaks colors
        fillOpacity := 8/10
        weight := 1
        color := "#333" } }

/-- The alert text of `applyThematicMapping` when no value coerces
(`src/app.js` line 664). -/
def noDataMsg : String := "Não há dados numéricos válidos para este atributo."

/-- Model of `applyThematicMapping(attribute)` (`src/app.js` lines 648-700).
Early-returns when the census-sector store is not loaded.  Sets
`currentThematicAttribute` (line 652, before any validation), extracts the
coercible values (lines 655-661), alerts and returns when none coerce
(lines 663-667), otherwise sorts the values, computes 5 breaks, assigns the
fixed palette, restyles every feature, and renders the legend. -/
def applyThematicMapping (attrName : String) (s : AppState) : AppState :=
  if s.setoresLoaded = true then
    let s1 := { s with currentThematicAttribute := some attrName }
    let values : List ℚ := s1.setores.filterMap (fun lf => lf.feature.props attrName)
    if values.length = 0 then
      { s1 with alerts := s1.alerts ++ [noDataMsg] }
    else
      let sortedValues := values.insertionSort (· ≤ ·)
      let breaks := calculateJenks sortedValues 5
      let colors := thematicPalette
      { s1 with
        thematicBreaks := breaks
        thematicColors := colors
        setores := s1.setores.map (applyFeatureStyle attrName breaks colors)
        legendEntries := updateLegend breaks colors
        legendVisible := true }
  else s

/-- Model of `resetThematicMapping()` (`src/app.js` lines 702-713).  Early-returns
when the store is not loaded; otherwise nulls `currentThematicAttribute`,
restyles every feature with `getFeatureStyle(feature, config.color)`, and
hides the legend container.  (`thematicBreaks` and `thematicColors` are not
touched.) -/
def resetThematicMapping (s : AppState) : AppState :=
  if s.setoresLoaded = true then
    { s with
      currentThematicAttribute := none
      setores := s.setores.map
        (fun lf => { lf with style := getFeatureStyle setoresColor lf.style })
      legendVisible := false }
  else s

/-- Model of `highlightFeatureFixed(e)` (`src/app.js` lines 245-269): the hover-enter
restyle, keeping the current fill color and fill opacity. -/
def highlightFeatureFixed (isCircleMarker : Bool) (st : Style) : Style :=
  if isCircleMarker then
    { st with radius := some 8, weight := 3, color := "#ffffff" }
  else
    { st with weight := 3, color := "#ffffff", dashArray := "" }

/-- The `else` branch of `resetHighlight` (`src/app.js` lines 290-312):
restore the layer's configured default style (circle markers get the fixed
marker style; the `distritos` layer additionally gets black borders at
weight 2; an unknown layer is left unstyled). -/
def restoreDefaultStyle (layerName : Option String) (isCircleMarker : Bool)
    (st : Style) : Style :=
  match layerName.bind configColor with
  | some c =>
    if isCircleMarker then
      { st with
        radius := some 6
        fillColor := some c
        color := "#ffffff"
        weight := 2
        opacity := 1
        fillOpacity := 7/10 }
    else
      let st1 := getFeatureStyle c st
      if layerName = some "distritos" then
        { st1 with color := "#000000", weight := 2 }
      else st1
  | none => st

/-- Model of `resetHighlight(e)` (`src/app.js` lines 271-314): the hover-exit
restyle.  While a thematic attribute is active and the feature belongs to
the census-sector layer, the feature's value of the active attribute is
recolored through `getColorForValue` against the stored breaks and palette
(with border weight 1, border color `'#000000'`, fill opacity `0.7`);
otherwise the configured default style is restored. -/
def resetHighlight (s : AppState) (layerName : Option String)
    (isCircleMarker : Bool) (lf : LayerFeature) : Style :=
  match s.currentThematicAttribute with
  | some attr =>
    if layerName = some "setores" then
      { lf.style with
        fillColor := getColorForValue (lf.feature.props attr)
          s.thematicBreaks s.thematicColors
        weight := 1
        opacity := 1
        color := "#000000"
        fillOpacity := 7/10 }
    else restoreDefaultStyle layerName isCircleMarker lf.style
  | none => restoreDefaultStyle layerName isCircleMarker lf.style

/-- An all-default base style, from which `L.geoJSON`'s initial style
callback builds each feature's starting options. -/
def emptyStyle : Style := ⟨none, 1, 1, "", "", 1, none⟩

/-- Census-sector feature with population attribute `v0001 = 10`. -/
def exFeature1 : Feature := ⟨fun a => if a = "v0001" then some 10 else none⟩

/-- Census-sector feature with population attribute `v0001 = 20`. -/
def exFeature2 : Feature := ⟨fun a => if a = "v0001" then some 20 else none⟩

/-- The initial style of a census-sector feature
(`style: feature => getFeatureStyle(feature, config.color)`). -/
def exStyle0 : Style := getFeatureStyle setoresColor emptyStyle

/-- A freshly-loaded application state: the census-sector store holds two
features, no thematic attribute is active, breaks and palette are empty. -/
def exState0 : AppState :=
  { setoresLoaded := true
    setores := [⟨exFeature1, exStyle0⟩, ⟨exFeature2, exStyle0⟩]
    currentThematicAttribute := none
    thematicBreaks := []
    thematicColors := []
    legendVisible := false
    legendEntries := []
    alerts := [] }

/-- State `exState0` after a successful `applyThematicMapping('v0001')`. -/
def exApplied : AppState := applyThematicMapping "v0001" exState0

/-- State `exApplied` after `applyThematicMapping('v0009')`, an attribute for
which no feature has a coercible value. -/
def exFailed : AppState := applyThematicMapping "v0009" exApplied

/-- Hover round-trip example feature: the first census-sector feature as
restyled by a successful `applyThematicMapping('v0001')` on `exState0`. -/
def exLf1 : LayerFeature :=
  applyFeatureStyle "v0001" (calculateJenks [10, 20] 5) thematicPalette
    ⟨exFeature1, exStyle0⟩

/-- In a `(· ≤ ·)`-sorted list, values at earlier positions are at most
values at later positions (`getD` version). -/
lemma getD_mono (l : List ℚ) (hs : l.Sorted (· ≤ ·)) {a b : ℕ}
    (hab : a ≤ b) (hb : b < l.length) : l.getD a 0 ≤ l.getD b 0 := by
  have ha : a < l.length := lt_of_le_of_lt hab hb
  rw [List.getD_eq_getElem?_getD, List.getElem?_eq_getElem ha,
      List.getD_eq_getElem?_getD, List.getElem?_eq_getElem hb]
  rcases lt_or_eq_of_le hab with h | h
  · have := @List.Sorted.rel_get_of_lt _ _ _ hs ⟨a, ha⟩ ⟨b, hb⟩ h
    simpa [List.get_eq_getElem] using this
  · subst h
    simp

/-- Characterisation of the scan loop: if position `i` is the first break
that `v` does not exceed, the loop stops there. -/
lemma scanIdx_eq_some (v : ℚ) (l : List ℚ) : ∀ i : ℕ, i < l.length →
    v ≤ l.getD i 0 → (∀ j, j < i → l.getD j 0 < v) → scanIdx v l = some i := by
  induction l with
  | nil => intro i hi; simp at hi
  | cons b bs ih =>
    intro i hi hle hlt
    cases i with
    | zero =>
      simp only [List.getD_cons_zero] at hle
      simp [scanIdx, hle]
    | succ j =>
      have hb : b < v := by simpa using hlt 0 (Nat.succ_pos j)
      have hr : scanIdx v bs = some j :=
        ih j (by simpa using hi) (by simpa using hle)
          (fun m hm => by simpa using hlt (m + 1) (by omega))
      simp [scanIdx, not_le.mpr hb, hr]

/-- Characterisation of the scan loop: if `v` exceeds every break, the loop
falls through. -/
lemma scanIdx_eq_none (v : ℚ) (l : List ℚ)
    (h : ∀ j, j < l.length → l.getD j 0 < v) : scanIdx v l = none := by
  induction l with
  | nil => rfl
  | cons b bs ih =>
    have hb : b < v := by simpa using h 0 (by simp)
    have hr : scanIdx v bs = none :=
      ih (fun m hm => by simpa using h (m + 1) (by simpa using hm))
    simp [scanIdx, not_le.mpr hb, hr]

/-- Each loop position `j * ⌊n / k⌋` of `calculateJenks` stays at or below
the final position `n - 1`. -/
lemma jenks_step_bound (n k j : ℕ) (hj : j ≤ k - 1) :
    j * (n / k) ≤ n - 1 := by
  rcases Nat.eq_zero_or_pos (n / k) with hq | hq
  · rw [hq, Nat.mul_zero]
    omega
  · have h1 : j * (n / k) ≤ (k - 1) * (n / k) :=
      Nat.mul_le_mul_right _ hj
    have h2 : (k - 1) * (n / k) = k * (n / k) - n / k := by
      rw [Nat.sub_mul, one_mul]
    have h3 : k * (n / k) ≤ n := by
      rw [mul_comm]
      exact Nat.div_mul_le_self n k
    have h4 : k * (n / k) - n / k ≤ n - n / k := Nat.sub_le_sub_right h3 _
    have h5 : n - n / k ≤ n - 1 := Nat.sub_le_sub_left hq n
    calc j * (n / k) ≤ (k - 1) * (n / k) := h1
      _ = k * (n / k) - n / k := h2
      _ ≤ n - n / k := h4
      _ ≤ n - 1 := h5

/-- Every position read by `calculateJenks` is at most `n - 1`. -/
lemma jenksIndices_bound (n k : ℕ) :
    ∀ i ∈ jenksIndices n k, i ≤ n - 1 := by
  intro i hi
  rw [jenksIndices, List.mem_append] at hi
  rcases hi with hi | hi
  · rw [List.mem_map] at hi
    obtain ⟨j, hj, rfl⟩ := hi
    rw [List.mem_range'_1] at hj
    exact jenks_step_bound n k j (by omega)
  · simp at hi
    omega

/-- The positions read by `calculateJenks` are non-decreasing. -/
lemma jenksIndices_sorted (n k : ℕ) :
    (jenksIndices n k).Sorted (· ≤ ·) := by
  rw [jenksIndices, List.Sorted, List.pairwise_append]
  refine ⟨?_, ?_, ?_⟩
  · rw [List.pairwise_map]
    have h : List.Pairwise (· < ·) (List.range' 1 (k - 1)) := by
      rw [List.range'_eq_map_range, List.pairwise_map]
      exact (List.pairwise_lt_range _).imp (by omega)
    exact h.imp (fun hab => Nat.mul_le_mul_right _ (le_of_lt hab))
  · simp
  · intro a ha b hb
    simp only [List.mem_singleton] at hb
    subst hb
    rw [List.mem_map] at ha
    obtain ⟨j, hj, rfl⟩ := ha
    rw [List.mem_range'_1] at hj
    exact jenks_step_bound n k j (by omega)

/-- Reading a sorted list at a non-decreasing list of in-bounds positions
yields a sorted list. -/
lemma sorted_map_getD (values : List ℚ) (hs : values.Sorted (· ≤ ·))
    (idx : List ℕ) (hb : ∀ i ∈ idx, i < values.length)
    (hi : idx.Sorted (· ≤ ·)) :
    (idx.map (fun i => values.getD i 0)).Sorted (· ≤ ·) := by
  rw [List.Sorted, List.pairwise_map]
  refine List.Pairwise.imp_of_mem ?_ hi
  intro a b ha hbm hab
  exact getD_mono values hs hab (hb b hbm)

/-- Length of the legend-row list equals the number of breaks. -/
lemma buildLegendEntries_length (start : ℚ) (bs : List ℚ) (cs : List String) :
    (buildLegendEntries start bs cs).length = bs.length := by
  induction bs generalizing start cs with
  | nil => rfl
  | cons b bs ih => simp [buildLegendEntries, ih]

/-- Pointwise description of the legend rows produced by the loop. -/
lemma buildLegendEntries_getElem? (start : ℚ) (bs : List ℚ) (cs : List String)
    (i : ℕ) (hi : i < bs.length) :
    (buildLegendEntries start bs cs)[i]? =
      some ⟨if i = 0 then start else bs.getD (i - 1) 0, bs.getD i 0, cs[i]?⟩ := by
  induction bs generalizing start cs i with
  | nil => simp at hi
  | cons b bs ih =>
    cases i with
    | zero =>
      cases cs <;> simp [buildLegendEntries]
    | succ j =>
      have hj : j < bs.length := by simpa using hi
      simp only [buildLegendEntries, List.getElem?_cons_succ]
      rw [ih b cs.tail j hj]
      congr 2
      · cases j with
        | zero => simp
        | succ m => simp [List.getD_cons_succ]
      · cases cs <;> simp

/-- C3: for every non-empty ascending-sorted sequence of finite numbers and
every class count `k ≥ 1`, the Classifier's output has length exactly `k`,
is non-decreasing, and its last element equals the maximum (last) element
of the input. -/
theorem calculateJenks_contract (values : List ℚ) (k : ℕ)
    (hne : values ≠ []) (hk : 1 ≤ k) (hs : values.Sorted (· ≤ ·)) :
    (calculateJenks values k).length = k ∧
    (calculateJenks values k).Sorted (· ≤ ·) ∧
    (calculateJenks values k).getLast? = values.getLast? := by
  have hn : 1 ≤ values.length := List.length_pos.mpr hne
  refine ⟨?_, ?_, ?_⟩
  · simp only [calculateJenks, jenksIndices, List.length_map, List.length_append,
      List.length_range', List.length_cons, List.length_nil]
    omega
  · exact sorted_map_getD values hs _
      (fun i hi => by
        have := jenksIndices_bound values.length k i hi
        omega)
      (jenksIndices_sorted values.length k)
  · rw [calculateJenks, jenksIndices, List.map_append, List.map_cons,
      List.map_nil, List.getLast?_concat, List.getLast?_eq_getElem?]
    rw [List.getD_eq_getElem?_getD, List.getElem?_eq_getElem (by omega)]
    rfl

/-- Witness for C3 at the concrete sorted input `[1, 2, 3]` with `k = 2`. -/
theorem calculateJenks_contract_witness :
    (calculateJenks [(1 : ℚ), 2, 3] 2).length = 2 ∧
    (calculateJenks [(1 : ℚ), 2, 3] 2).Sorted (· ≤ ·) ∧
    (calculateJenks [(1 : ℚ), 2, 3] 2).getLast? = ([(1 : ℚ), 2, 3]).getLast? :=
  calculateJenks_contract [1, 2, 3] 2 (by decide) (by decide) (by decide)

/-- C5: the Classifier on `[10, …, 100]` with `k = 5` yields the breaks of
the documented algorithm: indices 2, 4, 6, 8 then the last value, i.e.
`[30, 50, 70, 90, 100]`. -/
theorem calculateJenks_scenario :
    calculateJenks [10, 20, 30, 40, 50, 60, 70, 80, 90, 100] 5 =
      [30, 50, 70, 90, 100] := by decide

/-- C6: for every non-empty value sequence and every class count `k ≥ 1`
(including `n < k`), every position the Classifier reads is within bounds,
and its output contains only elements of the input. -/
theorem calculateJenks_safe (values : List ℚ) (k : ℕ)
    (hne : values ≠ []) (_hk : 1 ≤ k) :
    (∀ i ∈ jenksIndices values.length k, i < values.length) ∧
    (∀ x ∈ calculateJenks values k, x ∈ values) := by
  have hn : 1 ≤ values.length := List.length_pos.mpr hne
  constructor
  · intro i hi
    have := jenksIndices_bound values.length k i hi
    omega
  · intro x hx
    rw [calculateJenks, List.mem_map] at hx
    obtain ⟨i, hi, rfl⟩ := hx
    have hlt : i < values.length := by
      have := jenksIndices_bound values.length k i hi
      omega
    rw [List.getD_eq_getElem?_getD, List.getElem?_eq_getElem hlt]
    exact List.getElem_mem hlt

/-- Witness for C6 at the single-element input `[1]` with `k = 5`
(the `n < k` case). -/
theorem calculateJenks_safe_witness :
    (∀ i ∈ jenksIndices ([(1 : ℚ)]).length 5, i < ([(1 : ℚ)]).length) ∧
    (∀ x ∈ calculateJenks [(1 : ℚ)] 5, x ∈ [(1 : ℚ)]) :=
  calculateJenks_safe [1] 5 (by decide) (by decide)

/-- C4: with ascending breaks of length `k ≥ 1` and an index-aligned palette
of length `k`, the Color Mapper returns the palette color at the index of
the first break the value is `≤` to; the last palette color when the value
exceeds every break; and, for a missing/NaN value, the fixed neutral
no-data color, which differs from every color of the fixed 5-color
palette. -/
theorem getColorForValue_contract (breaks : List ℚ) (colors : List String)
    (k : ℕ) (hk : 1 ≤ k) (hb : breaks.length = k) (hc : colors.length = k)
    (_hsort : breaks.Sorted (· ≤ ·)) (v : ℚ) :
    (∀ i, i < k → v ≤ breaks.getD i 0 → (∀ j, j < i → breaks.getD j 0 < v) →
        getColorForValue (some v) breaks colors = some (colors.getD i "")) ∧
    ((∀ i, i < k → breaks.getD i 0 < v) →
        getColorForValue (some v) breaks colors = some (colors.getD (k - 1) "")) ∧
    getColorForValue none breaks colors = some noDataColor ∧
    noDataColor ∉ thematicPalette := by
  refine ⟨?_, ?_, rfl, by decide⟩
  · intro i hik hle hlt
    have hscan := scanIdx_eq_some v breaks i (by omega) hle hlt
    simp only [getColorForValue, hscan]
    rw [List.getElem?_eq_getElem (by omega), List.getD_eq_getElem?_getD,
      List.getElem?_eq_getElem (by omega)]
    rfl
  · intro hall
    have hscan := scanIdx_eq_none v breaks (fun j hj => hall j (by omega))
    simp only [getColorForValue, hscan]
    rw [hc, List.getElem?_eq_getElem (by omega), List.getD_eq_getElem?_getD,
      List.getElem?_eq_getElem (by omega)]
    rfl

/-- Witness for C4 at breaks `[1, 2]`, palette `["a", "b"]`, value `2`
(first break not exceeded is the second one). -/
theorem getColorForValue_contract_witness :
    getColorForValue (some 2) [(1 : ℚ), 2] ["a", "b"] =
      some (["a", "b"].getD 1 "") :=
  (getColorForValue_contract [(1 : ℚ), 2] ["a", "b"] 2 (by decide) (by decide)
      (by decide) (by decide) 2).1 1 (by decide) (by decide) (by decide)

/-- C7: for breaks of length `k` and an index-aligned palette of length `k`,
the Legend renders exactly one entry per class, entry `i` spanning from the
previous break (`0` for the first entry) to `breaks[i]`, swatched with
`palette[i]`. -/
theorem updateLegend_contract (breaks : List ℚ) (colors : List String)
    (h : colors.length = breaks.length) :
    (updateLegend breaks colors).length = breaks.length ∧
    ∀ i, i < breaks.length →
      (updateLegend breaks colors)[i]? =
        some ⟨if i = 0 then 0 else breaks.getD (i - 1) 0,
          breaks.getD i 0, some (colors.getD i "")⟩ := by
  constructor
  · exact buildLegendEntries_length 0 breaks colors
  · intro i hi
    rw [updateLegend, buildLegendEntries_getElem? 0 breaks colors i hi]
    congr 2
    rw [List.getElem?_eq_getElem (by omega), List.getD_eq_getElem?_getD,
      List.getElem?_eq_getElem (by omega)]
    rfl

/-- Witness for C7 at breaks `[1, 2]` and palette `["a", "b"]`. -/
theorem updateLegend_contract_witness :
    (updateLegend [(1 : ℚ), 2] ["a", "b"]).length = ([(1 : ℚ), 2]).length ∧
    ∀ i, i < ([(1 : ℚ), 2]).length →
      (updateLegend [(1 : ℚ), 2] ["a", "b"])[i]? =
        some ⟨if i = 0 then 0 else ([(1 : ℚ), 2]).getD (i - 1) 0,
          ([(1 : ℚ), 2]).getD i 0, some (["a", "b"].getD i "")⟩ :=
  updateLegend_contract [(1 : ℚ), 2] ["a", "b"] (by decide)

/-- C1 (evaluation at the failing input): starting from `exApplied` (a prior
successful apply of `v0001`), applying `v0009` — for which zero feature
values coerce — raises the user-facing no-valid-data alert and leaves
breaks, palette, feature styles and legend untouched, but
`currentThematicAttribute` has already been overwritten with the new
attribute (`src/app.js` line 652 runs before the check at line 663), so the
prior Thematic State is not left entirely unchanged. -/
theorem applyThematic_noValidData_eval :
    exFailed.alerts = exApplied.alerts ++ [noDataMsg] ∧
    exFailed.thematicBreaks = exApplied.thematicBreaks ∧
    exFailed.thematicColors = exApplied.thematicColors ∧
    exFailed.setores = exApplied.setores ∧
    exFailed.legendEntries = exApplied.legendEntries ∧
    exFailed.legendVisible = exApplied.legendVisible ∧
    exApplied.currentThematicAttribute = some "v0001" ∧
    exFailed.currentThematicAttribute = some "v0009" :=
  ⟨rfl, rfl, rfl, rfl, rfl, rfl, rfl, rfl⟩

/-- C2 counterexample: after a successful apply, running reset (with the
store loaded) nulls the active attribute but leaves the breaks and palette
non-empty, refuting that the whole Thematic State is null/empty. -/
theorem reset_leaves_breaks_nonempty :
    exApplied.setoresLoaded = true ∧
    (resetThematicMapping exApplied).currentThematicAttribute = none ∧
    (resetThematicMapping exApplied).thematicBreaks ≠ [] ∧
    (resetThematicMapping exApplied).thematicColors ≠ [] :=
  ⟨rfl, rfl, by decide, by decide⟩

/-- C2 (amended): after reset with the store loaded, the active attribute
is none and the legend is hidden, but the breaks and palette sequences
retain their previous contents (they are empty only if apply never ran). -/
theorem resetThematicMapping_amended (s : AppState)
    (h : s.setoresLoaded = true) :
    (resetThematicMapping s).currentThematicAttribute = none ∧
    (resetThematicMapping s).thematicBreaks = s.thematicBreaks ∧
    (resetThematicMapping s).thematicColors = s.thematicColors ∧
    (resetThematicMapping s).legendVisible = false := by
  simp [resetThematicMapping, h]

/-- Witness for the amended C2 at the concrete state `exApplied`. -/
theorem resetThematicMapping_amended_witness :
    (resetThematicMapping exApplied).currentThematicAttribute = none ∧
    (resetThematicMapping exApplied).thematicBreaks = exApplied.thematicBreaks ∧
    (resetThematicMapping exApplied).thematicColors = exApplied.thematicColors ∧
    (resetThematicMapping exApplied).legendVisible = false :=
  resetThematicMapping_amended exApplied rfl

/-- C9: with the store loaded, calling reset twice produces exactly the same
state as calling it once, and the legend is hidden afterwards. -/
theorem resetThematicMapping_idempotent (s : AppState)
    (h : s.setoresLoaded = true) :
    resetThematicMapping (resetThematicMapping s) = resetThematicMapping s ∧
    (resetThematicMapping (resetThematicMapping s)).legendVisible = false := by
  have hff : ((fun lf : LayerFeature =>
        { lf with style := getFeatureStyle setoresColor lf.style }) ∘
      (fun lf : LayerFeature =>
        { lf with style := getFeatureStyle setoresColor lf.style })) =
      (fun lf : LayerFeature =>
        { lf with style := getFeatureStyle setoresColor lf.style }) :=
    funext fun lf => rfl
  have key : resetThematicMapping (resetThematicMapping s) =
      resetThematicMapping s := by
    simp only [resetThematicMapping, h, if_true]
    rw [List.map_map, hff]
  refine ⟨key, ?_⟩
  rw [key]
  simp [resetThematicMapping, h]

/-- Witness for C9 at the concrete state `exState0`. -/
theorem resetThematicMapping_idempotent_witness :
    resetThematicMapping (resetThematicMapping exState0) =
      resetThematicMapping exState0 ∧
    (resetThematicMapping (resetThematicMapping exState0)).legendVisible =
      false :=
  resetThematicMapping_idempotent exState0 rfl

/-- C8: while a thematic attribute is active, the hover-exit restore on a
census-sector feature sets the fill color to the Color Mapper result for
the feature's value of the active attribute against the stored breaks and
palette, and does not revert to the layer's default restored style. -/
theorem resetHighlight_thematic_restore (s : AppState) (lf : LayerFeature)
    (attr : String) (b : Bool)
    (h : s.currentThematicAttribute = some attr) :
    (resetHighlight s (some "setores") b lf).fillColor =
      getColorForValue (lf.feature.props attr) s.thematicBreaks
        s.thematicColors ∧
    resetHighlight s (some "setores") b lf ≠
      restoreDefaultStyle (some "setores") b lf.style := by
  have hrh : resetHighlight s (some "setores") b lf =
      { lf.style with
        fillColor := getColorForValue (lf.feature.props attr)
          s.thematicBreaks s.thematicColors
        weight := 1
        opacity := 1
        color := "#000000"
        fillOpacity := 7/10 } := by
    unfold resetHighlight
    rw [h]
    rfl
  refine ⟨by rw [hrh], fun heq => ?_⟩
  rw [hrh] at heq
  have hw := congrArg Style.weight heq
  have hw2 : (restoreDefaultStyle (some "setores") b lf.style).weight = 2 := by
    cases b <;> rfl
  rw [hw2] at hw
  norm_num at hw

/-- Witness for C8 at the concrete state `exApplied` and its first feature. -/
theorem resetHighlight_thematic_restore_witness :
    (resetHighlight exApplied (some "setores") false
        ⟨exFeature1, exStyle0⟩).fillColor =
      getColorForValue (exFeature1.props "v0001") exApplied.thematicBreaks
        exApplied.thematicColors ∧
    resetHighlight exApplied (some "setores") false ⟨exFeature1, exStyle0⟩ ≠
      restoreDefaultStyle (some "setores") false exStyle0 :=
  resetHighlight_thematic_restore exApplied ⟨exFeature1, exStyle0⟩ "v0001"
    false rfl

/-- C10: while a thematic attribute is active, hover-enter followed by
hover-exit on a census-sector feature is not a no-op on its style: the
apply step gave it fill opacity `0.8` and border color `'#333'`, but the
hover-exit restore gives fill opacity `0.7` and border color `'#000000'`,
so the resulting style differs from the one apply produced, while the fill
color is recomputed identically. -/
theorem hover_roundtrip_changes_style (s : AppState) (attrN : String)
    (lf : LayerFeature) (hld : s.setoresLoaded = true)
    (hvals : (s.setores.filterMap (fun l => l.feature.props attrN)).length ≠ 0)
    (hmem : lf ∈ (applyThematicMapping attrN s).setores) :
    (resetHighlight (applyThematicMapping attrN s) (some "setores") false
        { lf with style := highlightFeatureFixed false lf.style }).fillColor =
      lf.style.fillColor ∧
    lf.style.fillOpacity = 8/10 ∧
    (resetHighlight (applyThematicMapping attrN s) (some "setores") false
        { lf with style := highlightFeatureFixed false lf.style }).fillOpacity =
      7/10 ∧
    lf.style.color = "#333" ∧
    (resetHighlight (applyThematicMapping attrN s) (some "setores") false
        { lf with style := highlightFeatureFixed false lf.style }).color =
      "#000000" ∧
    resetHighlight (applyThematicMapping attrN s) (some "setores") false
      { lf with style := highlightFeatureFixed false lf.style } ≠ lf.style := by
  have happ : applyThematicMapping attrN s =
      { s with
        currentThematicAttribute := some attrN
        thematicBreaks := calculateJenks
          ((s.setores.filterMap
            (fun l => l.feature.props attrN)).insertionSort (· ≤ ·)) 5
        thematicColors := thematicPalette
        setores := s.setores.map (applyFeatureStyle attrN
          (calculateJenks
            ((s.setores.filterMap
              (fun l => l.feature.props attrN)).insertionSort (· ≤ ·)) 5)
          thematicPalette)
        legendEntries := updateLegend
          (calculateJenks
            ((s.setores.filterMap
              (fun l => l.feature.props attrN)).insertionSort (· ≤ ·)) 5)
          thematicPalette
        legendVisible := true } := by
    simp [applyThematicMapping, hld, hvals]
  rw [happ] at hmem ⊢
  obtain ⟨lf0, _, rfl⟩ := List.mem_map.1 hmem
  refine ⟨rfl, rfl, rfl, rfl, rfl, fun heq => ?_⟩
  have hop := congrArg Style.fillOpacity heq
  norm_num [applyFeatureStyle, highlightFeatureFixed, resetHighlight] at hop

/-- Witness for C10 at `exState0`, attribute `v0001`, and the first
restyled census-sector feature `exLf1`. -/
theorem hover_roundtrip_changes_style_witness :
    (resetHighlight (applyThematicMapping "v0001" exState0) (some "setores")
        false
        { exLf1 with style := highlightFeatureFixed false exLf1.style }).fillColor =
      exLf1.style.fillColor ∧
    exLf1.style.fillOpacity = 8/10 ∧
    (resetHighlight (applyThematicMapping "v0001" exState0) (some "setores")
        false
        { exLf1 with style := highlightFeatureFixed false exLf1.style }).fillOpacity =
      7/10 ∧
    exLf1.style.color = "#333" ∧
    (resetHighlight (applyThematicMapping "v0001" exState0) (some "setores")
        false
        { exLf1 with style := highlightFeatureFixed false exLf1.style }).color =
      "#000000" ∧
    resetHighlight (applyThematicMapping "v0001" exState0) (some "setores")
      false { exLf1 with style := highlightFeatureFixed false exLf1.style } ≠
      exLf1.style :=
  hover_roundtrip_changes_style exState0 "v0001" exLf1 rfl (by decide)
    (List.Mem.head _)
